import Mathlib

/-!
Shallow embedding of the SIX lock (three-mode shared/intent/exclusive lock)
from `src/linux/six.c`, together with proofs about its operations.

The atomic state word is embedded as a record of its logical sub-fields
(the header that packs them into one 64-bit word is not part of the sources;
the field set and the per-mode deltas are taken from the `LOCK_VALS` table
and the field accesses in `six.c`).  Machine arithmetic: `seq` is a `u32`,
so write acquire/release computes mod `2^32`; the narrow bitfield counts are
kept as `Nat` (the code never lets them overflow, cf. the `EBUG_ON`s).

Concurrency is modelled sequentially: each C function becomes a pure state
transformer; `current` becomes an explicit task parameter, `this_cpu_*`
operations take an explicit cpu index into a list of per-CPU counters.
-/

namespace Six

/-- The three lock modes, ordinals 0/1/2 as in `enum six_lock_type`. -/
inductive SixLockType where
  | read
  | intent
  | write
deriving DecidableEq, Repr

/-- Ordinal value of a mode (`SIX_LOCK_read = 0`, etc.). -/
def SixLockType.ord : SixLockType → Nat
  | .read => 0
  | .intent => 1
  | .write => 2

/-- Decode the cascade return value `-1 - type` back into a mode
(`ret < 0` in `__do_six_trylock_type` encodes "also wake this class"). -/
def decodeCascade (r : Int) : SixLockType :=
  if r = -1 then .read else if r = -2 then .intent else .write

/-- Cascade encoding `-1 - type` used by `__do_six_trylock_type`. -/
def cascade (t : SixLockType) : Int := -1 - (t.ord : Int)

/-- The logical fields of `union six_lock_state` (the atomic 64-bit word). -/
structure SixLockState where
  /-- in-word shared count (`read_lock` bitfield) -/
  read_lock : Nat
  /-- intent-held bit (`intent_lock` bitfield) -/
  intent_lock : Nat
  /-- 3-bit waiters-present bitmap, one bit per mode ordinal -/
  waiters : Nat
  /-- write-locking-pending flag -/
  write_locking : Nat
  /-- 32-bit sequence counter; odd while write is held -/
  seq : Nat
deriving DecidableEq, Repr

/-- The `lock_fail` masks from `LOCK_VALS`: read fails on `__SIX_LOCK_HELD_write
+ __SIX_VAL(write_locking, 1)`, intent on `__SIX_LOCK_HELD_intent`, write on
`__SIX_LOCK_HELD_read`. -/
def lock_fail (t : SixLockType) (s : SixLockState) : Prop :=
  match t with
  | .read => s.seq % 2 = 1 ∨ s.write_locking ≠ 0
  | .intent => s.intent_lock ≠ 0
  | .write => s.read_lock ≠ 0

instance (t : SixLockType) (s : SixLockState) : Decidable (lock_fail t s) := by
  unfold lock_fail
  cases t <;> infer_instance

/-- Adding `lock_val` from `LOCK_VALS` to the state word. -/
def add_lock_val (t : SixLockType) (s : SixLockState) : SixLockState :=
  match t with
  | .read => { s with read_lock := s.read_lock + 1 }
  | .intent => { s with intent_lock := s.intent_lock + 1 }
  | .write => { s with seq := (s.seq + 1) % 4294967296 }

/-- Adding `unlock_val` from `LOCK_VALS` to the state word. -/
def add_unlock_val (t : SixLockType) (s : SixLockState) : SixLockState :=
  match t with
  | .read => { s with read_lock := s.read_lock - 1 }
  | .intent => { s with intent_lock := s.intent_lock - 1 }
  | .write => { s with seq := (s.seq + 1) % 4294967296 }

/-- The `held_mask` test from `LOCK_VALS` (`__SIX_LOCK_HELD_*`). -/
def held_mask_set (t : SixLockType) (s : SixLockState) : Prop :=
  match t with
  | .read => s.read_lock ≠ 0
  | .intent => s.intent_lock ≠ 0
  | .write => s.seq % 2 = 1

instance (t : SixLockType) (s : SixLockState) : Decidable (held_mask_set t s) := by
  unfold held_mask_set
  cases t <;> infer_instance

/-- The `unlock_wakeup` column of `LOCK_VALS`. -/
def unlock_wakeup : SixLockType → SixLockType
  | .read => .write
  | .intent => .intent
  | .write => .read

/-- A waiter record (`struct six_lock_waiter`); tasks are identified by `Nat`. -/
structure SixLockWaiter where
  task : Nat
  lock_want : SixLockType
  lock_acquired : Bool
  start_time : Nat
deriving DecidableEq, Repr

/-- The lock object (`struct six_lock`).  `readers = some arr` models an
installed per-CPU counter array (`lock->readers != NULL`), one entry per CPU. -/
structure SixLock where
  state : SixLockState
  owner : Option Nat
  intent_lock_recurse : Nat
  readers : Option (List Nat)
  wait_list : List SixLockWaiter
deriving DecidableEq, Repr

/-- Model of `this_cpu_inc` on the per-CPU array.  Each counter is a C `unsigned`
and may wrap: only the mod-2^32 sum is meaningful (a task may take a read
lock on one CPU and drop it on another). -/
def pcpu_inc (arr : List Nat) (cpu : Nat) : List Nat :=
  arr.set cpu ((arr.getD cpu 0 + 1) % 4294967296)

/-- Model of `this_cpu_dec` / `this_cpu_sub(..., 1)` on the per-CPU array
(wrapping 32-bit decrement). -/
def pcpu_dec (arr : List Nat) (cpu : Nat) : List Nat :=
  arr.set cpu ((arr.getD cpu 0 + (4294967296 - 1)) % 4294967296)

/-- Function `pcpu_read_count`: 32-bit sum of the per-CPU reader counters. -/
def pcpu_read_count (lk : SixLock) : Nat :=
  match lk.readers with
  | none => 0
  | some arr => arr.sum % 4294967296

/-- Function `six_set_owner`: on intent acquisition from `old.intent_lock == 0`,
record the task as owner. -/
def six_set_owner (lk : SixLock) (t : SixLockType) (old : SixLockState)
    (task : Nat) : SixLock :=
  if t = .intent then
    if old.intent_lock = 0 then { lk with owner := some task } else lk
  else lk

/-- Function `__do_six_trylock_type`: one non-blocking acquisition attempt.
Returns `ret` (`> 0` success, `= 0` failure, `< 0` cascade `-1 - mode`)
and the updated lock.  The CAS loop of the single-word path always succeeds
on its first iteration in this sequential model. -/
def __do_six_trylock_type (lk : SixLock) (t : SixLockType) (task : Nat)
    (tryFlag : Bool) (cpu : Nat) : Int × SixLock :=
  match t, lk.readers with
  | .read, some arr =>
    -- percpu reader fast path
    let arr1 := pcpu_inc arr cpu
    let old := lk.state
    let retb : Bool := decide (¬ lock_fail .read old)
    let arr2 := if retb then arr1 else pcpu_dec arr1 cpu
    let ret : Int :=
      if old.write_locking ≠ 0 then cascade .write
      else if retb then 1 else 0
    (ret, { lk with readers := some arr2 })
  | .write, some _ =>
    -- percpu write path: drain readers under write_locking
    let s0 := if tryFlag then
        { lk.state with write_locking := lk.state.write_locking + 1 }
      else lk.state
    let lk0 := { lk with state := s0 }
    let retb : Bool := decide (pcpu_read_count lk0 = 0)
    let s1 := if retb then { s0 with seq := (s0.seq + 1) % 4294967296 } else s0
    let s2 := if retb || tryFlag then
        { s1 with write_locking := s1.write_locking - 1 }
      else s1
    let s3 := if !retb && !tryFlag && !(s2.waiters.testBit 2) then
        { s2 with waiters := s2.waiters ||| (1 <<< 2) }
      else s2
    let ret : Int :=
      if tryFlag && !retb then
        if s3.waiters.testBit 0 then cascade .read else 0
      else if retb then 1 else 0
    (ret, { lk with state := s3 })
  | _, _ =>
    -- single-word compare-exchange path
    let old := lk.state
    if ¬ lock_fail t old then
      let new1 := add_lock_val t old
      let new2 := if t = .write then { new1 with write_locking := 0 } else new1
      let lk1 := { lk with state := new2 }
      (1, six_set_owner lk1 t old task)
    else if !tryFlag && !(old.waiters.testBit t.ord) then
      (0, { lk with state := { old with waiters := old.waiters ||| (1 <<< t.ord) } })
    else
      (0, lk)

/-- Result of one waitlist traversal in `__six_lock_wakeup` (the body of the
`again:` loop).  `granted` lists the waiters detached and woken (in FIFO
order, as they appeared in the list); `remaining` is the new waitlist;
`ret` is the last trylock result; `completed` is true when the walk reached
the end of the list (only then does the code clear the waiters bit). -/
structure WakeupResult where
  lk : SixLock
  granted : List SixLockWaiter
  remaining : List SixLockWaiter
  ret : Int
  completed : Bool
deriving Repr

/-- The `list_for_each_entry_safe` loop of `__six_lock_wakeup`: walk the
waiters in FIFO order; skip other modes; for intent/write stop after the
first same-mode waiter has been seen; otherwise try to grant; on grant,
detach the waiter (the code then sets `lock_acquired` and wakes the task)
and continue; on failure or cascade stop. -/
def wakeup_walk (t : SixLockType) (cpu : Nat) (lk : SixLock) (sawOne : Bool)
    (ret0 : Int) : List SixLockWaiter → WakeupResult
  | [] => ⟨lk, [], [], ret0, true⟩
  | w :: ws =>
    if w.lock_want ≠ t then
      let r := wakeup_walk t cpu lk sawOne ret0 ws
      { r with remaining := w :: r.remaining }
    else if sawOne ∧ t ≠ .read then
      ⟨lk, [], w :: ws, ret0, false⟩
    else
      let p := __do_six_trylock_type lk t w.task false cpu
      if p.1 ≤ 0 then ⟨p.2, [], w :: ws, p.1, false⟩
      else
        let r := wakeup_walk t cpu p.2 true p.1 ws
        { r with granted := w :: r.granted }

/-- Model of `clear_bit(waitlist_bitnr(t), &state)` on the waiters bitmap. -/
def clear_waiters_bit (t : SixLockType) (s : SixLockState) : SixLockState :=
  { s with waiters := s.waiters &&& (7 ^^^ (1 <<< t.ord)) }

/-- One `again:` iteration of `__six_lock_wakeup`: traverse, clear the
waiters bit if the traversal completed, and report a recorded cascade. -/
def __six_lock_wakeup_once (lk : SixLock) (t : SixLockType) (cpu : Nat) :
    SixLock × Option SixLockType :=
  let r := wakeup_walk t cpu lk false 0 lk.wait_list
  let st := if r.completed then clear_waiters_bit t r.lk.state else r.lk.state
  let lk1 := { r.lk with state := st, wait_list := r.remaining }
  (lk1, if r.ret < 0 then some (decodeCascade r.ret) else none)

/-- Function `__six_lock_wakeup` with explicit fuel for the cascade loop.  A cascade
arises only from the percpu paths (read walk can cascade to write; with
`try = false` the write walk cannot cascade), so any fuel ≥ 2 computes the
fixpoint; the driver below uses 4. -/
def __six_lock_wakeup_go : Nat → SixLock → SixLockType → Nat → SixLock
  | 0, lk, _, _ => lk
  | fuel + 1, lk, t, cpu =>
    match __six_lock_wakeup_once lk t cpu with
    | (lk1, none) => lk1
    | (lk1, some t1) => __six_lock_wakeup_go fuel lk1 t1 cpu

/-- Function `__six_lock_wakeup` (slow wakeup path with cascading retries). -/
def __six_lock_wakeup (lk : SixLock) (t : SixLockType) (cpu : Nat) : SixLock :=
  __six_lock_wakeup_go 4 lk t cpu

/-- Function `six_lock_wakeup` fast path: nothing to do if waking writers while a
reader is still present, or if the waiters bit for the class is clear. -/
def six_lock_wakeup (lk : SixLock) (state : SixLockState) (t : SixLockType)
    (cpu : Nat) : SixLock :=
  if t = .write ∧ state.read_lock ≠ 0 then lk
  else if ¬ state.waiters.testBit t.ord then lk
  else __six_lock_wakeup lk t cpu

/-- Function `do_six_trylock_type`: wrapper that performs a requested cascade wakeup
and booleanizes the result. -/
def do_six_trylock_type (lk : SixLock) (t : SixLockType) (task : Nat)
    (tryFlag : Bool) (cpu : Nat) : Bool × SixLock :=
  let p := __do_six_trylock_type lk t task tryFlag cpu
  if p.1 < 0 then (false, __six_lock_wakeup p.2 (decodeCascade p.1) cpu)
  else (decide (p.1 > 0), p.2)

/-- Function `__six_trylock_type` (the exported `six_trylock_read` etc., minus the
lockdep hooks): an explicit try. -/
def __six_trylock_type (lk : SixLock) (t : SixLockType) (task : Nat)
    (cpu : Nat) : Bool × SixLock :=
  do_six_trylock_type lk t task true cpu

/-- Function `__six_relock_type`: re-acquire a previously held mode, provided `seq`
has not moved.  Never called with `SIX_LOCK_write` (asserted in the code). -/
def __six_relock_type (lk : SixLock) (t : SixLockType) (task : Nat)
    (seq : Nat) (cpu : Nat) : Bool × SixLock :=
  match t, lk.readers with
  | .read, some arr =>
    let arr1 := pcpu_inc arr cpu
    let old := lk.state
    let retb : Bool := decide (¬ lock_fail .read old) && decide (old.seq = seq)
    let arr2 := if retb then arr1 else pcpu_dec arr1 cpu
    let lk1 := { lk with readers := some arr2 }
    let lk2 := if old.write_locking ≠ 0 then
        six_lock_wakeup lk1 old .write cpu
      else lk1
    (retb, lk2)
  | _, _ =>
    let old := lk.state
    if old.seq ≠ seq ∨ lock_fail t old then (false, lk)
    else
      let lk1 := { lk with state := add_lock_val t old }
      (true, six_set_owner lk1 t old task)

/-- Function `do_six_unlock_type`: clear the owner on intent release, apply the
release delta (per-CPU decrement for percpu readers, `unlock_val` on the
state word otherwise) and run the wakeup fast path for `unlock_wakeup t`. -/
def do_six_unlock_type (lk : SixLock) (t : SixLockType) (cpu : Nat) : SixLock :=
  match t, lk.readers with
  | .read, some arr =>
    let lk1 := { lk with readers := some (pcpu_dec arr cpu) }
    six_lock_wakeup lk1 lk1.state (unlock_wakeup .read) cpu
  | _, _ =>
    let lk0 := if t = .intent then { lk with owner := none } else lk
    let st := add_unlock_val t lk0.state
    let lk1 := { lk0 with state := st }
    six_lock_wakeup lk1 st (unlock_wakeup t) cpu

/-- Function `__six_unlock_type` (the exported `six_unlock_read` etc., minus the
lockdep hooks): a recursive intent hold just decrements the out-of-word
recursion counter; otherwise release for real. -/
def __six_unlock_type (lk : SixLock) (t : SixLockType) (cpu : Nat) : SixLock :=
  if t = .intent ∧ lk.intent_lock_recurse ≠ 0 then
    { lk with intent_lock_recurse := lk.intent_lock_recurse - 1 }
  else do_six_unlock_type lk t cpu

/-- The cancellation branch of `__six_lock_type_slowpath` (lines 461–469):
taken when `should_sleep_fn` returned `r ≠ 0` in the park loop.  `acq` is
the observed `wait->lock_acquired`: if clear, the waiter removes itself from
the waitlist; if set, the waker has already detached it and transferred the
lock, which must be released before returning the error. -/
def slowpath_cancel (lk : SixLock) (t : SixLockType) (w : SixLockWaiter)
    (acq : Bool) (r : Int) (cpu : Nat) : Int × SixLock :=
  let lk1 := if acq then lk else { lk with wait_list := lk.wait_list.erase w }
  let lk2 := if acq then do_six_unlock_type lk1 t cpu else lk1
  (r, lk2)

/-- Function `six_lock_increment`: second acquisition of an already-held read or
intent mode.  `increment(write)` is a `BUG()` in the code; it is modelled as
an unreachable identity. -/
def six_lock_increment (lk : SixLock) (t : SixLockType) (cpu : Nat) : SixLock :=
  match t with
  | .read =>
    match lk.readers with
    | some arr => { lk with readers := some (pcpu_inc arr cpu) }
    | none => { lk with state := add_lock_val .read lk.state }
  | .intent => { lk with intent_lock_recurse := lk.intent_lock_recurse + 1 }
  | .write => lk

/-- Function `six_lock_downgrade` (intent → read): take a read reference, then drop
the intent reference. -/
def six_lock_downgrade (lk : SixLock) (cpu : Nat) : SixLock :=
  __six_unlock_type (six_lock_increment lk .read cpu) .intent cpu

/-- Function `six_lock_tryupgrade` (read → intent): CAS that fails iff intent is
held; on success drop one reader (in the same CAS if in-word, by per-CPU
decrement otherwise), set the intent bit and record the owner. -/
def six_lock_tryupgrade (lk : SixLock) (task : Nat) (cpu : Nat) :
    Bool × SixLock :=
  let old := lk.state
  if old.intent_lock ≠ 0 then (false, lk)
  else
    let st1 := if lk.readers = none then
        { old with read_lock := old.read_lock - 1 }
      else old
    let st2 := { st1 with intent_lock := 1 }
    let lk1 := { lk with state := st2 }
    let lk2 := match lk1.readers with
      | some arr => { lk1 with readers := some (pcpu_dec arr cpu) }
      | none => lk1
    (true, six_set_owner lk2 .intent old task)

/-- Function `six_lock_pcpu_alloc`: install a per-CPU reader array (all counters
zero) if none is installed yet. -/
def six_lock_pcpu_alloc (lk : SixLock) (nr_cpus : Nat) : SixLock :=
  if lk.readers = none then
    { lk with readers := some (List.replicate nr_cpus 0) }
  else lk

/-- Function `six_lock_counts`: held counts for all three modes. -/
def six_lock_counts (lk : SixLock) : Nat × Nat × Nat :=
  let nread :=
    match lk.readers with
    | none => lk.state.read_lock
    | some arr => arr.sum % 4294967296
  (nread, lk.state.intent_lock + lk.intent_lock_recurse, lk.state.seq % 2)

/-- Modelled from the spec: `six_lock_init` lives in the lock's header,
which is not among the sources; per the spec, "The initial sequence value
is 0 (even, no writer)", nothing held, no waiters, no per-CPU array. -/
def six_init : SixLock := ⟨⟨0, 0, 0, 0, 0⟩, none, 0, none, []⟩

/-- Spec-side `counts()` as worded by the spec: readers is the per-CPU sum if enabled
else the in-word field; intent includes the out-of-word recursion counter;
writers is 1 iff `seq` is odd.  Compared against `six_lock_counts`. -/
def counts_spec (lk : SixLock) : Nat × Nat × Nat :=
  (match lk.readers with
   | some arr => arr.sum
   | none => lk.state.read_lock,
   lk.state.intent_lock + lk.intent_lock_recurse,
   if lk.state.seq % 2 = 1 then 1 else 0)

/-- One client-visible lock operation, sequentially interleaved.  The ghost
boolean of a configuration records whether a successful write acquisition
is outstanding.  Guards on the constructors are the code's own `EBUG_ON`
preconditions (a write try needs `seq` even, `write_locking` clear and the
caller as owner, line 108–110; unlocks need the mode held, lines 534/545-549). -/
inductive Step : SixLock × Bool → SixLock × Bool → Prop where
  | tryRead (lk : SixLock) (g : Bool) (task cpu : Nat) :
      Step (lk, g) ((__six_trylock_type lk .read task cpu).2, g)
  | tryIntent (lk : SixLock) (g : Bool) (task cpu : Nat) :
      Step (lk, g) ((__six_trylock_type lk .intent task cpu).2, g)
  | tryWrite (lk : SixLock) (g : Bool) (task cpu : Nat)
      (hseq : lk.state.seq % 2 = 0)
      (hwl : lk.state.write_locking = 0)
      (hown : lk.owner = some task) :
      Step (lk, g) ((__six_trylock_type lk .write task cpu).2,
        g || (__six_trylock_type lk .write task cpu).1)
  | unlockRead (lk : SixLock) (g : Bool) (cpu : Nat)
      (hheld : lk.readers = none → lk.state.read_lock ≠ 0) :
      Step (lk, g) (__six_unlock_type lk .read cpu, g)
  | unlockIntent (lk : SixLock) (g : Bool) (cpu : Nat)
      (hheld : lk.state.intent_lock ≠ 0) (hown : lk.owner ≠ none) :
      Step (lk, g) (__six_unlock_type lk .intent cpu, g)
  | unlockWrite (lk : SixLock) (g : Bool) (cpu : Nat)
      (hint : lk.state.intent_lock ≠ 0) (hown : lk.owner ≠ none)
      (hheld : lk.state.seq % 2 = 1) :
      Step (lk, g) (__six_unlock_type lk .write cpu, false)
  | relockRead (lk : SixLock) (g : Bool) (task s cpu : Nat) :
      Step (lk, g) ((__six_relock_type lk .read task s cpu).2, g)
  | relockIntent (lk : SixLock) (g : Bool) (task s cpu : Nat) :
      Step (lk, g) ((__six_relock_type lk .intent task s cpu).2, g)
  | incrementRead (lk : SixLock) (g : Bool) (cpu : Nat)
      (hheld : lk.state.read_lock ≠ 0 ∨ lk.state.intent_lock ≠ 0) :
      Step (lk, g) (six_lock_increment lk .read cpu, g)
  | incrementIntent (lk : SixLock) (g : Bool) (cpu : Nat)
      (hheld : lk.state.intent_lock ≠ 0) :
      Step (lk, g) (six_lock_increment lk .intent cpu, g)
  | downgrade (lk : SixLock) (g : Bool) (cpu : Nat)
      (hint : lk.state.intent_lock ≠ 0) (hown : lk.owner ≠ none) :
      Step (lk, g) (six_lock_downgrade lk cpu, g)
  | tryupgrade (lk : SixLock) (g : Bool) (task cpu : Nat)
      (hheld : lk.readers = none → lk.state.read_lock ≠ 0) :
      Step (lk, g) ((six_lock_tryupgrade lk task cpu).2, g)
  | pcpuAlloc (lk : SixLock) (g : Bool) (n : Nat) :
      Step (lk, g) (six_lock_pcpu_alloc lk n, g)

/-- Configurations reachable from the fresh lock by client operations. -/
inductive Reachable : SixLock × Bool → Prop where
  | init : Reachable (six_init, false)
  | step {c c1 : SixLock × Bool} : Reachable c → Step c c1 → Reachable c1

/-! ### Helper lemmas -/

theorem six_lock_wakeup_id (lk : SixLock) (s : SixLockState) (t : SixLockType)
    (cpu : Nat) (h : s.waiters = 0) : six_lock_wakeup lk s t cpu = lk := by
  unfold six_lock_wakeup
  rw [h]
  simp [Nat.zero_testBit]

theorem clear_waiters_bit_zero (t : SixLockType) (s : SixLockState)
    (h : s.waiters = 0) : clear_waiters_bit t s = s := by
  unfold clear_waiters_bit
  rw [h]
  simp only [Nat.zero_and]
  rw [← h]

theorem __six_lock_wakeup_id (lk : SixLock) (t : SixLockType) (cpu : Nat)
    (h1 : lk.wait_list = []) (h2 : lk.state.waiters = 0) :
    __six_lock_wakeup lk t cpu = lk := by
  unfold __six_lock_wakeup __six_lock_wakeup_go __six_lock_wakeup_once
  rw [h1]
  simp [wakeup_walk, clear_waiters_bit_zero t lk.state h2, ← h1]

theorem pcpu_dec_inc (arr : List Nat) (cpu : Nat)
    (h : arr.getD cpu 0 < 4294967296) :
    pcpu_dec (pcpu_inc arr cpu) cpu = arr := by
  induction arr generalizing cpu with
  | nil => simp [pcpu_inc, pcpu_dec]
  | cons a as ih =>
    cases cpu with
    | zero =>
      simp only [List.getD_cons_zero] at h
      simp only [pcpu_inc, pcpu_dec, List.getD_cons_zero, List.set_cons_zero]
      have hM : ((a + 1) % 4294967296 + (4294967296 - 1)) % 4294967296 = a := by
        rw [Nat.mod_add_mod]
        omega
      rw [hM]
    | succ n =>
      simp only [List.getD_cons_succ] at h
      simp only [pcpu_inc, pcpu_dec, List.getD_cons_succ, List.set_cons_succ]
      have := ih n h
      simp only [pcpu_inc, pcpu_dec] at this
      rw [this]

theorem sum_pcpu_inc (arr : List Nat) (cpu : Nat) (h : cpu < arr.length)
    (hb : arr.getD cpu 0 + 1 < 4294967296) :
    (pcpu_inc arr cpu).sum = arr.sum + 1 := by
  induction arr generalizing cpu with
  | nil => simp at h
  | cons a as ih =>
    cases cpu with
    | zero =>
      simp only [List.getD_cons_zero] at hb
      simp [pcpu_inc, Nat.mod_eq_of_lt hb]
      omega
    | succ n =>
      simp only [List.getD_cons_succ] at hb
      simp only [pcpu_inc, List.getD_cons_succ, List.set_cons_succ,
        List.sum_cons]
      have := ih n (by simpa using h) hb
      simp only [pcpu_inc] at this
      rw [this]
      omega

theorem trylock_read_pcpu (lk : SixLock) (task : Nat) (tf : Bool) (cpu : Nat)
    (arr : List Nat) (h : lk.readers = some arr) :
    __do_six_trylock_type lk .read task tf cpu =
      (if lk.state.write_locking ≠ 0 then cascade .write
       else if lock_fail .read lk.state then 0 else 1,
       { lk with readers := some (if lock_fail .read lk.state then pcpu_dec (pcpu_inc arr cpu) cpu else pcpu_inc arr cpu) }) := by
  simp only [__do_six_trylock_type, h]
  by_cases hf : lock_fail .read lk.state
  · simp [hf]
  · simp [hf]

theorem trylock_write_pcpu_try (lk : SixLock) (task : Nat) (cpu : Nat)
    (arr : List Nat) (h : lk.readers = some arr) :
    __do_six_trylock_type lk .write task true cpu =
      (if arr.sum % 4294967296 = 0 then 1
       else if lk.state.waiters.testBit 0 then cascade .read else 0,
       if arr.sum % 4294967296 = 0 then
         { lk with state := { lk.state with seq := (lk.state.seq + 1) % 4294967296 } }
       else lk) := by
  simp only [__do_six_trylock_type, h, pcpu_read_count]
  by_cases hs : arr.sum % 4294967296 = 0
  · simp [hs]
  · simp only [hs]
    simp
    rw [← h]

theorem trylock_write_pcpu_nontry (lk : SixLock) (task : Nat) (cpu : Nat)
    (arr : List Nat) (h : lk.readers = some arr) :
    __do_six_trylock_type lk .write task false cpu =
      (if arr.sum % 4294967296 = 0 then 1 else 0,
       if arr.sum % 4294967296 = 0 then
         { lk with state := { lk.state with
             write_locking := lk.state.write_locking - 1,
             seq := (lk.state.seq + 1) % 4294967296 } }
       else if lk.state.waiters.testBit 2 then lk
       else { lk with state :=
          { lk.state with waiters := lk.state.waiters ||| 4 } }) := by
  simp only [__do_six_trylock_type, h, pcpu_read_count]
  by_cases hs : arr.sum % 4294967296 = 0
  · simp [hs]
  · by_cases hb : lk.state.waiters.testBit 2
    · simp [hs, hb]
      rw [← h]
    · simp [hs, hb]

theorem trylock_read_single (lk : SixLock) (task : Nat) (tf : Bool) (cpu : Nat)
    (h : lk.readers = none) :
    __do_six_trylock_type lk .read task tf cpu =
      if ¬ lock_fail .read lk.state then
        (1, { lk with state :=
          { lk.state with read_lock := lk.state.read_lock + 1 } })
      else if !tf && !(lk.state.waiters.testBit 0) then
        (0, { lk with state :=
          { lk.state with waiters := lk.state.waiters ||| 1 } })
      else (0, lk) := by
  simp only [__do_six_trylock_type, h]
  by_cases hf : lock_fail .read lk.state
  · simp [hf, add_lock_val, six_set_owner, SixLockType.ord]
  · simp [hf, add_lock_val, six_set_owner, SixLockType.ord]

theorem trylock_intent_eq (lk : SixLock) (task : Nat) (tf : Bool) (cpu : Nat) :
    __do_six_trylock_type lk .intent task tf cpu =
      if lk.state.intent_lock = 0 then
        (1, { lk with
          state := { lk.state with intent_lock := lk.state.intent_lock + 1 },
          owner := some task })
      else if !tf && !(lk.state.waiters.testBit 1) then
        (0, { lk with state :=
          { lk.state with waiters := lk.state.waiters ||| 2 } })
      else (0, lk) := by
  rcases h : lk.readers with _ | arr <;>
  · simp only [__do_six_trylock_type, h]
    by_cases hf : lk.state.intent_lock = 0
    · simp [hf, lock_fail, add_lock_val, six_set_owner, SixLockType.ord]
    · simp [hf, lock_fail, add_lock_val, six_set_owner, SixLockType.ord]

theorem trylock_write_single (lk : SixLock) (task : Nat) (tf : Bool) (cpu : Nat)
    (h : lk.readers = none) :
    __do_six_trylock_type lk .write task tf cpu =
      if lk.state.read_lock = 0 then
        (1, { lk with state := { lk.state with
          write_locking := 0, seq := (lk.state.seq + 1) % 4294967296 } })
      else if !tf && !(lk.state.waiters.testBit 2) then
        (0, { lk with state :=
          { lk.state with waiters := lk.state.waiters ||| 4 } })
      else (0, lk) := by
  simp only [__do_six_trylock_type, h]
  by_cases hf : lk.state.read_lock = 0
  · simp [hf, lock_fail, add_lock_val, six_set_owner, SixLockType.ord]
  · simp [hf, lock_fail, add_lock_val, six_set_owner, SixLockType.ord]

theorem six_lock_wakeup_write_id (lk : SixLock) (s : SixLockState) (cpu : Nat)
    (hbit : s.waiters.testBit 2 = false) :
    six_lock_wakeup lk s .write cpu = lk := by
  by_cases hr : s.read_lock ≠ 0
  · simp [six_lock_wakeup, hr]
  · simp [six_lock_wakeup, hr, SixLockType.ord, hbit]

theorem do_six_unlock_read_pcpu_eq (lk : SixLock) (cpu : Nat) (arr : List Nat)
    (h : lk.readers = some arr) (hwb : lk.state.waiters = 0) :
    do_six_unlock_type lk .read cpu =
      { lk with readers := some (pcpu_dec arr cpu) } := by
  simp [do_six_unlock_type, h, unlock_wakeup, six_lock_wakeup_id, hwb]

theorem do_six_unlock_read_single_eq (lk : SixLock) (cpu : Nat)
    (h : lk.readers = none) (hwb : lk.state.waiters = 0) :
    do_six_unlock_type lk .read cpu =
      { lk with state :=
        { lk.state with read_lock := lk.state.read_lock - 1 } } := by
  simp [do_six_unlock_type, h, unlock_wakeup, add_unlock_val,
    six_lock_wakeup_id, hwb]

theorem do_six_unlock_intent_eq (lk : SixLock) (cpu : Nat)
    (hwb : lk.state.waiters = 0) :
    do_six_unlock_type lk .intent cpu =
      { lk with owner := none, state :=
        { lk.state with intent_lock := lk.state.intent_lock - 1 } } := by
  rcases h : lk.readers with _ | arr <;>
  · simp [do_six_unlock_type, h, unlock_wakeup, add_unlock_val,
      six_lock_wakeup_id, hwb]

theorem do_six_unlock_write_eq (lk : SixLock) (cpu : Nat)
    (hwb : lk.state.waiters = 0) :
    do_six_unlock_type lk .write cpu =
      { lk with state :=
        { lk.state with seq := (lk.state.seq + 1) % 4294967296 } } := by
  rcases h : lk.readers with _ | arr <;>
  · simp [do_six_unlock_type, h, unlock_wakeup, add_unlock_val,
      six_lock_wakeup_id, hwb]

theorem trylock_wait_list (lk : SixLock) (t : SixLockType) (task : Nat)
    (tf : Bool) (cpu : Nat) :
    (__do_six_trylock_type lk t task tf cpu).2.wait_list = lk.wait_list := by
  rcases h : lk.readers with _ | arr <;> cases t <;>
    simp only [__do_six_trylock_type, h, six_set_owner] <;>
    split_ifs <;> rfl

theorem seq_plus_two_parity (s : Nat) :
    ((s + 1) % 4294967296 + 1) % 4294967296 % 2 = s % 2 := by
  rw [Nat.mod_add_mod, Nat.mod_mod_of_dvd _ (by norm_num : (2 : Nat) ∣ 4294967296)]
  omega

theorem seq_plus_two_parity2 (s : Nat) :
    (s + 1 + 1) % 4294967296 % 2 = s % 2 := by
  rw [Nat.mod_mod_of_dvd _ (by norm_num : (2 : Nat) ∣ 4294967296)]
  omega

theorem slowpath_cancel_acq (lk : SixLock) (t : SixLockType)
    (w : SixLockWaiter) (r : Int) (cpu : Nat) :
    slowpath_cancel lk t w true r cpu = (r, do_six_unlock_type lk t cpu) := rfl

theorem trylock_try_waiters (lk : SixLock) (t : SixLockType) (task cpu : Nat) :
    (__do_six_trylock_type lk t task true cpu).2.state.waiters =
      lk.state.waiters := by
  rcases h : lk.readers with _ | arr
  · cases t
    · rw [trylock_read_single lk task true cpu h]
      split_ifs with hA hB <;> first | rfl | simp at hB
    · rw [trylock_intent_eq lk task true cpu]
      split_ifs with hA hB <;> first | rfl | simp at hB
    · rw [trylock_write_single lk task true cpu h]
      split_ifs with hA hB <;> first | rfl | simp at hB
  · cases t
    · rw [trylock_read_pcpu lk task true cpu arr h]
    · rw [trylock_intent_eq lk task true cpu]
      split_ifs with hA hB <;> first | rfl | simp at hB
    · rw [trylock_write_pcpu_try lk task cpu arr h]
      split_ifs <;> rfl

theorem trylock_try_seq (lk : SixLock) (t : SixLockType) (task cpu : Nat)
    (ht : t ≠ .write) :
    (__do_six_trylock_type lk t task true cpu).2.state.seq =
      lk.state.seq := by
  rcases h : lk.readers with _ | arr
  · cases t
    · rw [trylock_read_single lk task true cpu h]
      split_ifs with hA hB <;> first | rfl | simp at hB
    · rw [trylock_intent_eq lk task true cpu]
      split_ifs with hA hB <;> first | rfl | simp at hB
    · exact absurd rfl ht
  · cases t
    · rw [trylock_read_pcpu lk task true cpu arr h]
    · rw [trylock_intent_eq lk task true cpu]
      split_ifs with hA hB <;> first | rfl | simp at hB
    · exact absurd rfl ht

theorem trylock_try_write_seq (lk : SixLock) (task cpu : Nat) :
    ((__do_six_trylock_type lk .write task true cpu).1 > 0 →
       (__do_six_trylock_type lk .write task true cpu).2.state.seq =
         (lk.state.seq + 1) % 4294967296) ∧
    ((__do_six_trylock_type lk .write task true cpu).1 ≤ 0 →
       (__do_six_trylock_type lk .write task true cpu).2.state.seq =
         lk.state.seq) := by
  rcases h : lk.readers with _ | arr
  · rw [trylock_write_single lk task true cpu h]
    by_cases h1 : lk.state.read_lock = 0
    · simp [h1]
    · simp [h1]
  · rw [trylock_write_pcpu_try lk task cpu arr h]
    by_cases h1 : arr.sum % 4294967296 = 0
    · simp [h1]
    · by_cases hb : lk.state.waiters.testBit 0 <;>
        simp [h1, hb, cascade, SixLockType.ord]

theorem do_six_trylock_type_no_waiters (lk : SixLock) (t : SixLockType)
    (task : Nat) (tf : Bool) (cpu : Nat)
    (hwl : lk.wait_list = []) (hwb : lk.state.waiters = 0) (htf : tf = true) :
    do_six_trylock_type lk t task tf cpu =
      (decide ((__do_six_trylock_type lk t task tf cpu).1 > 0),
        (__do_six_trylock_type lk t task tf cpu).2) := by
  subst htf
  unfold do_six_trylock_type
  by_cases hneg : (__do_six_trylock_type lk t task true cpu).1 < 0
  · rw [if_pos hneg,
      __six_lock_wakeup_id _ _ _
        ((trylock_wait_list lk t task true cpu).trans hwl)
        ((trylock_try_waiters lk t task cpu).trans hwb)]
    have : ¬ (__do_six_trylock_type lk t task true cpu).1 > 0 := by omega
    simp [this]
  · rw [if_neg hneg]

theorem relock_inv_pres (lk : SixLock) (t : SixLockType) (task s cpu : Nat)
    (ht : t ≠ .write) (hwb : lk.state.waiters = 0) :
    (__six_relock_type lk t task s cpu).2.state.seq = lk.state.seq ∧
    (__six_relock_type lk t task s cpu).2.state.waiters = lk.state.waiters ∧
    (__six_relock_type lk t task s cpu).2.wait_list = lk.wait_list := by
  rcases h : lk.readers with _ | arr
  · cases t
    · simp only [__six_relock_type, h]
      split_ifs with hc
      · exact ⟨rfl, rfl, rfl⟩
      · simp only [add_lock_val, six_set_owner]
        split_ifs <;> exact ⟨rfl, rfl, rfl⟩
    · simp only [__six_relock_type, h]
      split_ifs with hc
      · exact ⟨rfl, rfl, rfl⟩
      · simp only [add_lock_val, six_set_owner]
        split_ifs <;> exact ⟨rfl, rfl, rfl⟩
    · exact absurd rfl ht
  · cases t
    · simp only [__six_relock_type, h]
      by_cases hwr : lk.state.write_locking ≠ 0
      · rw [if_pos hwr, six_lock_wakeup_id _ _ _ _ hwb]
        exact ⟨rfl, rfl, rfl⟩
      · rw [if_neg hwr]
        exact ⟨rfl, rfl, rfl⟩
    · simp only [__six_relock_type, h]
      split_ifs with hc
      · exact ⟨rfl, rfl, rfl⟩
      · simp only [add_lock_val, six_set_owner]
        split_ifs <;> exact ⟨rfl, rfl, rfl⟩
    · exact absurd rfl ht

theorem tryupgrade_fail_eq (lk : SixLock) (task cpu : Nat)
    (hi : lk.state.intent_lock ≠ 0) :
    six_lock_tryupgrade lk task cpu = (false, lk) := by
  simp [six_lock_tryupgrade, hi]

theorem tryupgrade_single_eq (lk : SixLock) (task cpu : Nat)
    (hi : lk.state.intent_lock = 0) (h : lk.readers = none) :
    six_lock_tryupgrade lk task cpu =
      (true, { lk with
        state := { lk.state with read_lock := lk.state.read_lock - 1, intent_lock := 1 },
        owner := some task }) := by
  simp [six_lock_tryupgrade, hi, h, six_set_owner]

theorem tryupgrade_pcpu_eq (lk : SixLock) (task cpu : Nat) (arr : List Nat)
    (hi : lk.state.intent_lock = 0) (h : lk.readers = some arr) :
    six_lock_tryupgrade lk task cpu =
      (true, { lk with
        state := { lk.state with intent_lock := 1 },
        owner := some task,
        readers := some (pcpu_dec arr cpu) }) := by
  simp [six_lock_tryupgrade, hi, h, six_set_owner]

theorem reachable_inv (c : SixLock × Bool) (h : Reachable c) :
    (c.1.state.seq % 2 = 1 ↔ c.2 = true) ∧
    c.1.state.waiters = 0 ∧ c.1.wait_list = [] := by
  induction h with
  | init => exact ⟨by simp [six_init], rfl, rfl⟩
  | step _ hs ih =>
    cases hs with
    | tryRead lk g task cpu =>
      obtain ⟨hpar, hwb, hwl⟩ := ih
      simp only [__six_trylock_type,
        do_six_trylock_type_no_waiters lk .read task true cpu hwl hwb rfl]
      exact ⟨by rw [trylock_try_seq lk .read task cpu (by decide)]; exact hpar,
        (trylock_try_waiters lk .read task cpu).trans hwb,
        (trylock_wait_list lk .read task true cpu).trans hwl⟩
    | tryIntent lk g task cpu =>
      obtain ⟨hpar, hwb, hwl⟩ := ih
      simp only [__six_trylock_type,
        do_six_trylock_type_no_waiters lk .intent task true cpu hwl hwb rfl]
      exact ⟨by rw [trylock_try_seq lk .intent task cpu (by decide)]; exact hpar,
        (trylock_try_waiters lk .intent task cpu).trans hwb,
        (trylock_wait_list lk .intent task true cpu).trans hwl⟩
    | tryWrite lk g task cpu hseq hwlck hown =>
      obtain ⟨hpar, hwb, hwl⟩ := ih
      simp only [__six_trylock_type,
        do_six_trylock_type_no_waiters lk .write task true cpu hwl hwb rfl]
      refine ⟨?_, (trylock_try_waiters lk .write task cpu).trans hwb,
        (trylock_wait_list lk .write task true cpu).trans hwl⟩
      by_cases hpos : (__do_six_trylock_type lk .write task true cpu).1 > 0
      · rw [(trylock_try_write_seq lk task cpu).1 hpos]
        have hp1 : (lk.state.seq + 1) % 4294967296 % 2 = 1 := by
          rw [Nat.mod_mod_of_dvd _ (by norm_num : (2 : Nat) ∣ 4294967296)]
          omega
        simp [hp1, hpos]
      · rw [(trylock_try_write_seq lk task cpu).2 (by omega)]
        have hd : decide ((__do_six_trylock_type lk .write task true cpu).1 > 0) = false := by
          simp [hpos]
        rw [hd]
        simpa using hpar
    | unlockRead lk g cpu hheld =>
      obtain ⟨hpar, hwb, hwl⟩ := ih
      simp only [__six_unlock_type]
      rw [if_neg (by simp)]
      rcases h : lk.readers with _ | arr
      · rw [do_six_unlock_read_single_eq lk cpu h hwb]
        exact ⟨hpar, hwb, hwl⟩
      · rw [do_six_unlock_read_pcpu_eq lk cpu arr h hwb]
        exact ⟨hpar, hwb, hwl⟩
    | unlockIntent lk g cpu hheld hown =>
      obtain ⟨hpar, hwb, hwl⟩ := ih
      by_cases hrec : lk.intent_lock_recurse ≠ 0
      · simp only [__six_unlock_type]
        rw [if_pos ⟨trivial, hrec⟩]
        exact ⟨hpar, hwb, hwl⟩
      · simp only [__six_unlock_type]
        rw [if_neg (by simp [hrec])]
        rw [do_six_unlock_intent_eq lk cpu hwb]
        exact ⟨hpar, hwb, hwl⟩
    | unlockWrite lk g cpu hint hown hheld =>
      obtain ⟨hpar, hwb, hwl⟩ := ih
      simp only [__six_unlock_type]
      rw [if_neg (by simp)]
      rw [do_six_unlock_write_eq lk cpu hwb]
      refine ⟨?_, hwb, hwl⟩
      have hp0 : (lk.state.seq + 1) % 4294967296 % 2 = 0 := by
        rw [Nat.mod_mod_of_dvd _ (by norm_num : (2 : Nat) ∣ 4294967296)]
        omega
      simp [hp0]
    | relockRead lk g task s cpu =>
      obtain ⟨hpar, hwb, hwl⟩ := ih
      obtain ⟨h1, h2, h3⟩ := relock_inv_pres lk .read task s cpu (by decide) hwb
      exact ⟨by rw [h1]; exact hpar, h2.trans hwb, h3.trans hwl⟩
    | relockIntent lk g task s cpu =>
      obtain ⟨hpar, hwb, hwl⟩ := ih
      obtain ⟨h1, h2, h3⟩ := relock_inv_pres lk .intent task s cpu (by decide) hwb
      exact ⟨by rw [h1]; exact hpar, h2.trans hwb, h3.trans hwl⟩
    | incrementRead lk g cpu hheld =>
      obtain ⟨hpar, hwb, hwl⟩ := ih
      rcases h : lk.readers with _ | arr <;>
        simp only [six_lock_increment, h, add_lock_val] <;>
        exact ⟨hpar, hwb, hwl⟩
    | incrementIntent lk g cpu hheld =>
      obtain ⟨hpar, hwb, hwl⟩ := ih
      exact ⟨hpar, hwb, hwl⟩
    | downgrade lk g cpu hint hown =>
      obtain ⟨hpar, hwb, hwl⟩ := ih
      by_cases hrec : lk.intent_lock_recurse ≠ 0 <;>
        rcases h : lk.readers with _ | arr
      · simp only [six_lock_downgrade, six_lock_increment, h, add_lock_val,
          __six_unlock_type]
        rw [if_pos ⟨trivial, hrec⟩]
        exact ⟨hpar, hwb, hwl⟩
      · simp only [six_lock_downgrade, six_lock_increment, h,
          __six_unlock_type]
        rw [if_pos ⟨trivial, hrec⟩]
        exact ⟨hpar, hwb, hwl⟩
      · simp only [six_lock_downgrade, six_lock_increment, h, add_lock_val,
          __six_unlock_type]
        rw [if_neg (by simp [hrec])]
        rw [do_six_unlock_intent_eq _ _ (by simpa using hwb)]
        exact ⟨hpar, hwb, hwl⟩
      · simp only [six_lock_downgrade, six_lock_increment, h,
          __six_unlock_type]
        rw [if_neg (by simp [hrec])]
        rw [do_six_unlock_intent_eq _ _ (by simpa using hwb)]
        exact ⟨hpar, hwb, hwl⟩
    | tryupgrade lk g task cpu hheld =>
      obtain ⟨hpar, hwb, hwl⟩ := ih
      by_cases hi : lk.state.intent_lock ≠ 0
      · rw [tryupgrade_fail_eq lk task cpu hi]
        exact ⟨hpar, hwb, hwl⟩
      · have hi0 : lk.state.intent_lock = 0 := by simpa using hi
        rcases h : lk.readers with _ | arr
        · rw [tryupgrade_single_eq lk task cpu hi0 h]
          exact ⟨hpar, hwb, hwl⟩
        · rw [tryupgrade_pcpu_eq lk task cpu arr hi0 h]
          exact ⟨hpar, hwb, hwl⟩
    | pcpuAlloc lk g n =>
      obtain ⟨hpar, hwb, hwl⟩ := ih
      by_cases h : lk.readers = none
      · simp only [six_lock_pcpu_alloc]
        rw [if_pos h]
        exact ⟨hpar, hwb, hwl⟩
      · simp only [six_lock_pcpu_alloc]
        rw [if_neg h]
        exact ⟨hpar, hwb, hwl⟩

/-! ### Claim theorems -/

/-- C8: `six_lock_counts` returns the triple (readers, intent holds,
writers) with readers the per-CPU sum when the array is installed and the
in-word field otherwise, intent including the out-of-word recursion
counter, and writers 1 iff `seq` is odd (as formulated by `counts_spec`). -/
theorem six_lock_counts_eq_spec (lk : SixLock)
    (hs : ∀ arr, lk.readers = some arr → arr.sum < 4294967296) :
    six_lock_counts lk = counts_spec lk := by
  have h2 : lk.state.seq % 2 = if lk.state.seq % 2 = 1 then 1 else 0 := by
    rcases Nat.mod_two_eq_zero_or_one lk.state.seq with h | h <;> simp [h]
  rcases h : lk.readers with _ | arr
  · simp [six_lock_counts, counts_spec, h, ← h2]
  · simp [six_lock_counts, counts_spec, h, ← h2,
      Nat.mod_eq_of_lt (hs arr h)]

/-- Witness for C8 at a per-CPU lock holding one reader and one recursive
intent. -/
theorem six_lock_counts_eq_spec_w :
    six_lock_counts ⟨⟨0, 1, 0, 0, 3⟩, some 4, 2, some [1, 0], []⟩ =
      counts_spec ⟨⟨0, 1, 0, 0, 3⟩, some 4, 2, some [1, 0], []⟩ :=
  six_lock_counts_eq_spec ⟨⟨0, 1, 0, 0, 3⟩, some 4, 2, some [1, 0], []⟩
    (by intro arr harr; cases harr; decide)

/-- C10: `six_lock_pcpu_alloc` is idempotent: with a per-CPU reader array
already installed it leaves the lock unchanged (the array is kept, no new
array replaces it). -/
theorem pcpu_alloc_idempotent (lk : SixLock) (arr : List Nat) (n : Nat)
    (h : lk.readers = some arr) : six_lock_pcpu_alloc lk n = lk := by
  unfold six_lock_pcpu_alloc
  rw [h]
  simp

/-- Witness for C10 at a lock with an installed array. -/
theorem pcpu_alloc_idempotent_w :
    six_lock_pcpu_alloc ⟨⟨0, 0, 0, 0, 0⟩, none, 0, some [0], []⟩ 3 =
      ⟨⟨0, 0, 0, 0, 0⟩, none, 0, some [0], []⟩ :=
  pcpu_alloc_idempotent _ [0] 3 rfl

/-- C7: with intent held, `increment(intent)` only raises the out-of-word
recursion counter (the atomic state word is untouched), and a matching
`unlock(intent)` with recursion counter > 0 only decrements that counter,
so the composition is the identity on the lock. -/
theorem increment_intent_unlock_identity (lk : SixLock) (cpu cpu2 : Nat)
    (hint : lk.state.intent_lock ≠ 0) :
    (six_lock_increment lk .intent cpu).state = lk.state ∧
    (six_lock_increment lk .intent cpu).intent_lock_recurse =
      lk.intent_lock_recurse + 1 ∧
    (∀ lk2 : SixLock, lk2.intent_lock_recurse ≠ 0 →
      __six_unlock_type lk2 .intent cpu2 =
        { lk2 with intent_lock_recurse := lk2.intent_lock_recurse - 1 }) ∧
    __six_unlock_type (six_lock_increment lk .intent cpu) .intent cpu2 = lk := by
  refine ⟨rfl, rfl, ?_, ?_⟩
  · intro lk2 h2
    simp [__six_unlock_type, h2]
  · simp [six_lock_increment, __six_unlock_type]

/-- Witness for C7 at a lock holding intent with one recursive hold. -/
theorem increment_intent_unlock_identity_w :
    ((six_lock_increment ⟨⟨0, 1, 0, 0, 0⟩, some 4, 1, none, []⟩ .intent 0).state =
       (⟨⟨0, 1, 0, 0, 0⟩, some 4, 1, none, []⟩ : SixLock).state) ∧
    ((six_lock_increment ⟨⟨0, 1, 0, 0, 0⟩, some 4, 1, none, []⟩ .intent 0).intent_lock_recurse = 2) ∧
    (∀ lk2 : SixLock, lk2.intent_lock_recurse ≠ 0 →
      __six_unlock_type lk2 .intent 0 =
        { lk2 with intent_lock_recurse := lk2.intent_lock_recurse - 1 }) ∧
    __six_unlock_type (six_lock_increment ⟨⟨0, 1, 0, 0, 0⟩, some 4, 1, none, []⟩ .intent 0) .intent 0 =
      ⟨⟨0, 1, 0, 0, 0⟩, some 4, 1, none, []⟩ :=
  increment_intent_unlock_identity ⟨⟨0, 1, 0, 0, 0⟩, some 4, 1, none, []⟩ 0 0 (by decide)

/-- C2 counterexample: in the per-CPU write path with an explicit try, a
SUCCESSFUL attempt with the read waiters' bit set returns plain success
(ret = 1), not cascade(read); the cascade is issued on failure instead
(six.c lines 168–171 run only when `try && !ret`). -/
theorem trylock_write_pcpu_success_despite_read_waiters :
    (__do_six_trylock_type ⟨⟨0, 0, 1, 0, 0⟩, some 9, 0, some [0, 0], []⟩ .write 9 true 0).1 = 1 ∧
    (⟨0, 0, 1, 0, 0⟩ : SixLockState).waiters.testBit 0 = true ∧
    (__do_six_trylock_type ⟨⟨0, 0, 1, 0, 0⟩, some 9, 0, some [0, 0], []⟩ .write 9 true 0).1 ≠ cascade .read := by
  decide

/-- C2 (amended): in the per-CPU write path with an explicit try, after the
composite delta is applied with one atomic add, if the attempt FAILED and
the read waiters' bit was observed set, the function returns cascade(read). -/
theorem trylock_write_pcpu_cascade_on_failed_try (lk : SixLock)
    (task cpu : Nat) (arr : List Nat) (h : lk.readers = some arr)
    (hfail : arr.sum % 4294967296 ≠ 0) (hbit : lk.state.waiters.testBit 0 = true) :
    (__do_six_trylock_type lk .write task true cpu).1 = cascade .read := by
  rw [trylock_write_pcpu_try lk task cpu arr h]
  simp [hfail, hbit]

/-- Witness for the amended C2: an explicit per-CPU write try that fails
against one outstanding reader with the read-waiters bit set cascades. -/
theorem trylock_write_pcpu_cascade_on_failed_try_w :
    (__do_six_trylock_type ⟨⟨0, 0, 1, 0, 0⟩, some 9, 0, some [1, 0], []⟩ .write 9 true 0).1 = cascade .read :=
  trylock_write_pcpu_cascade_on_failed_try ⟨⟨0, 0, 1, 0, 0⟩, some 9, 0, some [1, 0], []⟩ 9 0 [1, 0] rfl (by decide) (by decide)

/-- C9: a failed explicit try (`__do_six_trylock_type` with `try = true`)
leaves the lock entirely unchanged (net reader count, intent bit, owner and
seq included): the per-CPU read path decrements the counter it
pre-incremented, the per-CPU write try adds then subtracts `write_locking`,
and the single-word path breaks out of the CAS loop without writing.
A failed `__six_relock_type` likewise (its embedded spurious-failure wakeup
is vacuous when no write waiter is flagged). -/
theorem failed_try_and_relock_frame (lk : SixLock) (t : SixLockType)
    (task s cpu : Nat)
    (hbound : ∀ arr, lk.readers = some arr → arr.getD cpu 0 < 4294967296) :
    ((__do_six_trylock_type lk t task true cpu).1 ≤ 0 →
       (__do_six_trylock_type lk t task true cpu).2 = lk) ∧
    (t ≠ .write → lk.state.waiters.testBit 2 = false →
       (__six_relock_type lk t task s cpu).1 = false →
       (__six_relock_type lk t task s cpu).2 = lk) := by
  constructor
  · intro hle
    rcases h : lk.readers with _ | arr
    · cases t
      · rw [trylock_read_single lk task true cpu h] at hle ⊢
        by_cases hf : lock_fail .read lk.state
        · simp [hf]
        · simp [hf] at hle
      · rw [trylock_intent_eq lk task true cpu] at hle ⊢
        by_cases hf : lk.state.intent_lock = 0
        · simp [hf] at hle
        · simp [hf]
      · rw [trylock_write_single lk task true cpu h] at hle ⊢
        by_cases hf : lk.state.read_lock = 0
        · simp [hf] at hle
        · simp [hf]
    · cases t
      · rw [trylock_read_pcpu lk task true cpu arr h] at hle ⊢
        by_cases hw : lk.state.write_locking ≠ 0
        · have hf : lock_fail .read lk.state := Or.inr hw
          simp [hw, hf, pcpu_dec_inc arr cpu (hbound arr h), ← h]
        · by_cases hf : lock_fail .read lk.state
          · simp [hw, hf, pcpu_dec_inc arr cpu (hbound arr h), ← h]
          · simp [hw, hf] at hle
      · rw [trylock_intent_eq lk task true cpu] at hle ⊢
        by_cases hf : lk.state.intent_lock = 0
        · simp [hf] at hle
        · simp [hf]
      · rw [trylock_write_pcpu_try lk task cpu arr h] at hle ⊢
        by_cases hz : arr.sum % 4294967296 = 0
        · simp [hz] at hle
        · simp [hz]
  · intro hnw hbit hfalse
    rcases h : lk.readers with _ | arr
    · cases t
      · simp only [__six_relock_type, h] at hfalse ⊢
        by_cases hc : lk.state.seq ≠ s ∨ lock_fail .read lk.state
        · simp [hc]
        · simp [hc] at hfalse
      · simp only [__six_relock_type, h] at hfalse ⊢
        by_cases hc : lk.state.seq ≠ s ∨ lock_fail .intent lk.state
        · simp [hc]
        · simp [hc] at hfalse
      · exact absurd rfl hnw
    · cases t
      · have hretb : ((decide (¬ lock_fail .read lk.state) &&
            decide (lk.state.seq = s)) : Bool) = false := by
          simpa only [__six_relock_type, h] using hfalse
        simp only [__six_relock_type, h, hretb, Bool.false_eq_true, if_false,
          pcpu_dec_inc arr cpu (hbound arr h)]
        by_cases hw : lk.state.write_locking ≠ 0
        · rw [if_pos hw, six_lock_wakeup_write_id _ _ _ hbit, ← h]
        · rw [if_neg hw, ← h]
      · simp only [__six_relock_type, h] at hfalse ⊢
        by_cases hc : lk.state.seq ≠ s ∨ lock_fail .intent lk.state
        · simp [hc]
        · simp [hc] at hfalse
      · exact absurd rfl hnw

/-- Witness for C9: a failed intent try against a held intent, and a failed
intent relock against a moved seq, both leave the lock unchanged. -/
theorem failed_try_and_relock_frame_w :
    ((__do_six_trylock_type ⟨⟨0, 1, 0, 0, 0⟩, some 4, 0, none, []⟩ .intent 7 true 0).1 ≤ 0 →
       (__do_six_trylock_type ⟨⟨0, 1, 0, 0, 0⟩, some 4, 0, none, []⟩ .intent 7 true 0).2 =
         ⟨⟨0, 1, 0, 0, 0⟩, some 4, 0, none, []⟩) ∧
    ((__six_relock_type ⟨⟨0, 1, 0, 0, 0⟩, some 4, 0, none, []⟩ .intent 7 5 0).2 =
       ⟨⟨0, 1, 0, 0, 0⟩, some 4, 0, none, []⟩) :=
  ⟨(failed_try_and_relock_frame ⟨⟨0, 1, 0, 0, 0⟩, some 4, 0, none, []⟩ .intent 7 5 0
      (fun arr harr => by cases harr)).1,
   (failed_try_and_relock_frame ⟨⟨0, 1, 0, 0, 0⟩, some 4, 0, none, []⟩ .intent 7 5 0
      (fun arr harr => by cases harr)).2
     (by decide) (by decide) (by decide)⟩

/-- C9 counterexample: the claim fails as universally stated.  At a per-CPU
lock with `write_locking` set, the write-waiters bit flagged, a parked
write waiter and zero per-CPU readers, a read relock FAILS (fail mask set,
six.c lines 306-308) yet does not leave the lock unchanged: its embedded
spurious-failure wakeup (line 316) grants the parked writer via
`__do_six_trylock_type(write, try=false)`, advancing `seq` from 0 to 1. -/
theorem failed_relock_grants_writer_changes_seq :
    (__six_relock_type ⟨⟨0, 0, 4, 1, 0⟩, some 9, 0, some [0], [⟨9, .write, false, 0⟩]⟩ .read 3 0 0).1 = false ∧
    (__six_relock_type ⟨⟨0, 0, 4, 1, 0⟩, some 9, 0, some [0], [⟨9, .write, false, 0⟩]⟩ .read 3 0 0).2.state.seq ≠
      (⟨0, 0, 4, 1, 0⟩ : SixLockState).seq := by
  decide

/-- C5: `relock(mode, captured_seq)` for mode ≠ write: the single-word path
returns false, with the lock bit-for-bit unchanged (so no waiters bit set,
no parking), whenever the current seq differs from the captured one or the
mode's fail mask is set; the per-CPU read path succeeds iff the fail mask
is clear AND the post-barrier state's seq equals the captured seq. -/
theorem relock_fails_on_seq_change (lk : SixLock) (t : SixLockType)
    (task s cpu : Nat) (hnw : t ≠ .write) :
    (lk.readers = none →
       (lk.state.seq ≠ s ∨ lock_fail t lk.state) →
       __six_relock_type lk t task s cpu = (false, lk)) ∧
    (t = .intent →
       (lk.state.seq ≠ s ∨ lock_fail t lk.state) →
       __six_relock_type lk t task s cpu = (false, lk)) ∧
    (∀ arr, lk.readers = some arr → t = .read →
       ((__six_relock_type lk t task s cpu).1 = true ↔
         (¬ lock_fail .read lk.state ∧ lk.state.seq = s))) := by
  refine ⟨?_, ?_, ?_⟩
  · intro h hc
    cases t
    · simp [__six_relock_type, h, hc]
    · simp [__six_relock_type, h, hc]
    · exact absurd rfl hnw
  · intro ht hc
    subst ht
    rcases h : lk.readers with _ | arr <;> simp [__six_relock_type, h, hc]
  · intro arr h ht
    subst ht
    simp [__six_relock_type, h]

/-- Witness for C5: a single-word read relock against a moved seq fails and
leaves the fresh lock unchanged; a per-CPU read relock at an unmoved seq
succeeds. -/
theorem relock_fails_on_seq_change_w :
    (__six_relock_type six_init .read 3 5 0 = (false, six_init)) ∧
    ((__six_relock_type ⟨⟨0, 0, 0, 0, 0⟩, none, 0, some [0], []⟩ .read 3 0 0).1 = true ↔
      (¬ lock_fail .read (⟨0, 0, 0, 0, 0⟩ : SixLockState) ∧
        (⟨0, 0, 0, 0, 0⟩ : SixLockState).seq = 0)) :=
  ⟨(relock_fails_on_seq_change six_init .read 3 5 0 (by decide)).1 rfl (by decide),
   (relock_fails_on_seq_change ⟨⟨0, 0, 0, 0, 0⟩, none, 0, some [0], []⟩ .read 3 0 0 (by decide)).2.2
     [0] rfl rfl⟩

/-- C6: `six_lock_tryupgrade` fails iff intent is held at the CAS; on
success it subtracts one reader (in the same CAS when the in-word count is
used, by per-CPU decrement otherwise) while setting the intent bit and
assigning the owner.  `six_lock_downgrade` always succeeds: with intent
held it yields one more reader and one fewer intent hold. -/
theorem tryupgrade_iff_and_downgrade (lk : SixLock) (task cpu : Nat) :
    (((six_lock_tryupgrade lk task cpu).1 = false ↔ lk.state.intent_lock ≠ 0) ∧
     ((six_lock_tryupgrade lk task cpu).1 = false →
        (six_lock_tryupgrade lk task cpu).2 = lk) ∧
     (lk.state.intent_lock = 0 → lk.readers = none →
        (six_lock_tryupgrade lk task cpu).2 = { lk with
          state := { lk.state with read_lock := lk.state.read_lock - 1, intent_lock := 1 },
          owner := some task }) ∧
     (∀ arr, lk.state.intent_lock = 0 → lk.readers = some arr →
        (six_lock_tryupgrade lk task cpu).2 = { lk with
          state := { lk.state with intent_lock := 1 },
          owner := some task,
          readers := some (pcpu_dec arr cpu) })) ∧
    (lk.state.intent_lock ≠ 0 → lk.state.waiters = 0 →
     (∀ arr, lk.readers = some arr →
        cpu < arr.length ∧ arr.sum + 1 < 4294967296 ∧
        arr.getD cpu 0 + 1 < 4294967296) →
       six_lock_counts (six_lock_downgrade lk cpu) =
         ((six_lock_counts lk).1 + 1, (six_lock_counts lk).2.1 - 1,
          (six_lock_counts lk).2.2)) := by
  refine ⟨⟨?_, ?_, ?_, ?_⟩, ?_⟩
  · by_cases hi : lk.state.intent_lock ≠ 0 <;>
      simp [six_lock_tryupgrade, hi]
  · intro hf
    by_cases hi : lk.state.intent_lock ≠ 0
    · simp [six_lock_tryupgrade, hi]
    · simp [six_lock_tryupgrade, hi] at hf
  · intro hi hr
    simp [six_lock_tryupgrade, hi, hr, six_set_owner]
  · intro arr hi hr
    simp [six_lock_tryupgrade, hi, hr, six_set_owner]
  · intro hi hwb hlen
    rcases h : lk.readers with _ | arr
    · by_cases hrec : lk.intent_lock_recurse ≠ 0
      · simp [six_lock_downgrade, six_lock_increment, __six_unlock_type, hrec,
          six_lock_counts, h, add_lock_val]
        omega
      · simp only [six_lock_downgrade, six_lock_increment, h,
          __six_unlock_type, hrec]
        rw [do_six_unlock_intent_eq _ _ (by simpa [add_lock_val] using hwb)]
        simp [six_lock_counts, h, add_lock_val]
        omega
    · obtain ⟨hl, hsum, hent⟩ := hlen arr h
      have hinc : (pcpu_inc arr cpu).sum % 4294967296 = arr.sum % 4294967296 + 1 := by
        rw [sum_pcpu_inc arr cpu hl hent, Nat.mod_eq_of_lt hsum,
          Nat.mod_eq_of_lt (by omega)]
      by_cases hrec : lk.intent_lock_recurse ≠ 0
      · simp [six_lock_downgrade, six_lock_increment, __six_unlock_type, hrec,
          six_lock_counts, h, hinc]
        omega
      · simp only [six_lock_downgrade, six_lock_increment, h,
          __six_unlock_type, hrec]
        rw [do_six_unlock_intent_eq _ _ (by simpa using hwb)]
        simp [six_lock_counts, h, hinc]
        omega

/-- Witness for C6: upgrading a singly-read-held in-word lock succeeds and
produces the expected state; downgrading an intent-held lock moves one hold
from intent to read. -/
theorem tryupgrade_iff_and_downgrade_w :
    (six_lock_tryupgrade ⟨⟨1, 0, 0, 0, 0⟩, none, 0, none, []⟩ 5 0).2 =
      ⟨⟨0, 1, 0, 0, 0⟩, some 5, 0, none, []⟩ ∧
    six_lock_counts (six_lock_downgrade ⟨⟨0, 1, 0, 0, 0⟩, some 5, 0, none, []⟩ 0) = (1, 0, 0) := by
  constructor
  · have h := (tryupgrade_iff_and_downgrade
      ⟨⟨1, 0, 0, 0, 0⟩, none, 0, none, []⟩ 5 0).1.2.2.1 rfl rfl
    exact h.trans (by decide)
  · have h2 := (tryupgrade_iff_and_downgrade
      ⟨⟨0, 1, 0, 0, 0⟩, some 5, 0, none, []⟩ 5 0).2
      (by decide) rfl (fun arr harr => by cases harr)
    exact h2.trans (by decide)

/-- C3: a blocking lock call cancelled by `should_sleep_fn` returning
`r ≠ 0` returns exactly `r`, with the waiter off the waitlist and the lock
not held by the caller.  If the waiter was not yet granted, it removes
itself and the lock state is untouched; if the waker raced and already
granted the lock (successful trylock on the waiter's behalf, waiter
detached), the cancel branch releases the just-granted lock, restoring the
held counts — the lock is never leaked. -/
theorem slowpath_cancel_returns_error (lk : SixLock) (t : SixLockType)
    (w : SixLockWaiter) (r : Int) (cpu : Nat) (hr : r ≠ 0)
    (hwb : lk.state.waiters = 0)
    (hbound : ∀ arr, lk.readers = some arr → arr.getD cpu 0 < 4294967296) :
    (lk.wait_list.count w ≤ 1 →
       (slowpath_cancel lk t w false r cpu).1 = r ∧
       w ∉ (slowpath_cancel lk t w false r cpu).2.wait_list ∧
       (slowpath_cancel lk t w false r cpu).2.state = lk.state ∧
       (slowpath_cancel lk t w false r cpu).2.readers = lk.readers) ∧
    (w ∉ lk.wait_list →
     (__do_six_trylock_type lk t w.task false cpu).1 > 0 →
       (slowpath_cancel (__do_six_trylock_type lk t w.task false cpu).2 t w true r cpu).1 = r ∧
       w ∉ (slowpath_cancel (__do_six_trylock_type lk t w.task false cpu).2 t w true r cpu).2.wait_list ∧
       six_lock_counts (slowpath_cancel (__do_six_trylock_type lk t w.task false cpu).2 t w true r cpu).2 =
         six_lock_counts lk) := by
  constructor
  · intro hcnt
    refine ⟨rfl, ?_, rfl, rfl⟩
    have he := List.count_erase_self w lk.wait_list
    have hz : (lk.wait_list.erase w).count w = 0 := by omega
    simpa [slowpath_cancel] using List.count_eq_zero.mp hz
  · intro hnl hpos
    have hb0 : lk.state.waiters.testBit 0 = false := by
      rw [hwb]; exact Nat.zero_testBit 0
    have hb1 : lk.state.waiters.testBit 1 = false := by
      rw [hwb]; exact Nat.zero_testBit 1
    have hb2 : lk.state.waiters.testBit 2 = false := by
      rw [hwb]; exact Nat.zero_testBit 2
    rw [slowpath_cancel_acq]
    rcases h : lk.readers with _ | arr
    · cases t
      · by_cases h1 : lock_fail .read lk.state
        · simp [trylock_read_single lk w.task false cpu h, h1, hb0] at hpos
        · rw [trylock_read_single lk w.task false cpu h, if_pos h1]
          dsimp only
          rw [do_six_unlock_read_single_eq _ _ (by simpa using h) (by simpa using hwb)]
          exact ⟨rfl, by simpa using hnl, by simp [six_lock_counts, h]⟩
      · by_cases h1 : lk.state.intent_lock = 0
        · rw [trylock_intent_eq lk w.task false cpu, if_pos h1]
          dsimp only
          rw [do_six_unlock_intent_eq _ _ (by simpa using hwb)]
          exact ⟨rfl, by simpa using hnl, by simp [six_lock_counts, h]⟩
        · simp [trylock_intent_eq lk w.task false cpu, h1, hb1] at hpos
      · by_cases h1 : lk.state.read_lock = 0
        · rw [trylock_write_single lk w.task false cpu h, if_pos h1]
          dsimp only
          rw [do_six_unlock_write_eq _ _ (by simpa using hwb)]
          exact ⟨rfl, by simpa using hnl,
            by simp [six_lock_counts, h, seq_plus_two_parity, seq_plus_two_parity2]⟩
        · simp [trylock_write_single lk w.task false cpu h, h1, hb2] at hpos
    · cases t
      · by_cases hwl : lk.state.write_locking ≠ 0
        · simp [trylock_read_pcpu lk w.task false cpu arr h, hwl, cascade,
            SixLockType.ord] at hpos
        · by_cases h1 : lock_fail .read lk.state
          · simp [trylock_read_pcpu lk w.task false cpu arr h, hwl, h1] at hpos
          · rw [trylock_read_pcpu lk w.task false cpu arr h, if_neg hwl,
              if_neg h1, if_neg h1]
            dsimp only
            rw [do_six_unlock_read_pcpu_eq _ _ (pcpu_inc arr cpu) rfl (by simpa using hwb)]
            refine ⟨rfl, by simpa using hnl, ?_⟩
            simp [six_lock_counts, pcpu_dec_inc arr cpu (hbound arr h), h]
      · by_cases h1 : lk.state.intent_lock = 0
        · rw [trylock_intent_eq lk w.task false cpu, if_pos h1]
          dsimp only
          rw [do_six_unlock_intent_eq _ _ (by simpa using hwb)]
          exact ⟨rfl, by simpa using hnl, by simp [six_lock_counts, h]⟩
        · simp [trylock_intent_eq lk w.task false cpu, h1, hb1] at hpos
      · by_cases h1 : arr.sum % 4294967296 = 0
        · rw [trylock_write_pcpu_nontry lk w.task cpu arr h, if_pos h1,
            if_pos h1]
          dsimp only
          rw [do_six_unlock_write_eq _ _ (by simpa using hwb)]
          exact ⟨rfl, by simpa using hnl,
            by simp [six_lock_counts, h, seq_plus_two_parity, seq_plus_two_parity2]⟩
        · simp [trylock_write_pcpu_nontry lk w.task cpu arr h, h1, hb2] at hpos

/-- Witness for C3: cancelling with error 7, both before and after a racing
grant, on an intent waiter of a fresh lock. -/
theorem slowpath_cancel_returns_error_w :
    ((slowpath_cancel ⟨⟨0, 0, 0, 0, 0⟩, none, 0, none, [⟨3, .intent, false, 0⟩]⟩ .intent ⟨3, .intent, false, 0⟩ false 7 0).1 = 7 ∧
      ⟨3, .intent, false, 0⟩ ∉ (slowpath_cancel ⟨⟨0, 0, 0, 0, 0⟩, none, 0, none, [⟨3, .intent, false, 0⟩]⟩ .intent ⟨3, .intent, false, 0⟩ false 7 0).2.wait_list) ∧
    ((slowpath_cancel (__do_six_trylock_type six_init .intent 3 false 0).2 .intent ⟨3, .intent, false, 0⟩ true 7 0).1 = 7 ∧
      six_lock_counts (slowpath_cancel (__do_six_trylock_type six_init .intent 3 false 0).2 .intent ⟨3, .intent, false, 0⟩ true 7 0).2 =
        six_lock_counts six_init) := by
  have h1 := (slowpath_cancel_returns_error
    ⟨⟨0, 0, 0, 0, 0⟩, none, 0, none, [⟨3, .intent, false, 0⟩]⟩ .intent
    ⟨3, .intent, false, 0⟩ 7 0 (by decide) rfl
    (fun arr harr => by cases harr)).1 (by decide)
  have h2 := (slowpath_cancel_returns_error six_init .intent
    ⟨3, .intent, false, 0⟩ 7 0 (by decide) rfl
    (fun arr harr => by cases harr)).2 (by decide) (by decide)
  exact ⟨⟨h1.1, h1.2.1⟩, ⟨h2.1, h2.2.2⟩⟩

/-- C1: starting from the initial state (seq = 0), along every sequence of
lock operations the 32-bit seq is odd iff a write acquisition is
outstanding (the ghost boolean of the transition system); and a complete
write critical section — `lock_write` then `unlock_write` — advances seq by
exactly 2: once on acquire (seq+1) and once on release (seq+2). -/
theorem seq_parity_invariant_and_write_section :
    (∀ (lk : SixLock) (g : Bool), Reachable (lk, g) →
       (lk.state.seq % 2 = 1 ↔ g = true)) ∧
    (∀ (lk : SixLock) (task cpu : Nat),
       lk.readers = none → lk.state.read_lock = 0 →
       lk.state.write_locking = 0 → lk.state.seq % 2 = 0 →
       lk.state.intent_lock ≠ 0 →
       lk.state.waiters = 0 → lk.wait_list = [] →
       (__six_trylock_type lk .write task cpu).1 = true ∧
       (__six_trylock_type lk .write task cpu).2.state.seq =
         (lk.state.seq + 1) % 4294967296 ∧
       (__six_unlock_type (__six_trylock_type lk .write task cpu).2 .write cpu).state.seq =
         (lk.state.seq + 2) % 4294967296) := by
  constructor
  · intro lk g h
    exact (reachable_inv (lk, g) h).1
  · intro lk task cpu h hrl hwlck hseq hint hwb hwl
    have hshape := trylock_write_single lk task true cpu h
    rw [if_pos hrl] at hshape
    have hEq : __six_trylock_type lk .write task cpu =
        (true, { lk with state := { lk.state with write_locking := 0, seq := (lk.state.seq + 1) % 4294967296 } }) := by
      show do_six_trylock_type lk .write task true cpu = _
      rw [do_six_trylock_type_no_waiters lk .write task true cpu hwl hwb rfl,
        hshape]
      rfl
    rw [hEq]
    refine ⟨rfl, rfl, ?_⟩
    simp only [__six_unlock_type]
    rw [if_neg (by simp)]
    rw [do_six_unlock_write_eq _ _ (by simpa using hwb)]
    show ((lk.state.seq + 1) % 4294967296 + 1) % 4294967296 = _
    rw [Nat.mod_add_mod]

/-- Witness for C1: the initial configuration satisfies the parity
invariant, and a write section from a fresh intent-held lock takes seq from
0 to 1 to 2. -/
theorem seq_parity_invariant_and_write_section_w :
    (six_init.state.seq % 2 = 1 ↔ false = true) ∧
    ((__six_trylock_type ⟨⟨0, 1, 0, 0, 0⟩, some 5, 0, none, []⟩ .write 5 0).1 = true ∧
     (__six_trylock_type ⟨⟨0, 1, 0, 0, 0⟩, some 5, 0, none, []⟩ .write 5 0).2.state.seq = 1 ∧
     (__six_unlock_type (__six_trylock_type ⟨⟨0, 1, 0, 0, 0⟩, some 5, 0, none, []⟩ .write 5 0).2 .write 0).state.seq = 2) := by
  constructor
  · exact seq_parity_invariant_and_write_section.1 six_init false Reachable.init
  · have h := seq_parity_invariant_and_write_section.2
      ⟨⟨0, 1, 0, 0, 0⟩, some 5, 0, none, []⟩ 5 0 rfl rfl rfl rfl
      (by decide) rfl rfl
    exact ⟨h.1, h.2.1.trans (by decide), h.2.2.trans (by decide)⟩

theorem wakeup_walk_sawOne_nonread (t : SixLockType) (cpu : Nat)
    (ht : t ≠ .read) (ws : List SixLockWaiter) :
    ∀ (lk : SixLock) (r0 : Int),
      (wakeup_walk t cpu lk true r0 ws).granted = [] := by
  induction ws with
  | nil => intro lk r0; rfl
  | cons w rest ih =>
    intro lk r0
    by_cases hw : w.lock_want = t
    · simp [wakeup_walk, hw, ht]
    · simp [wakeup_walk, hw, ih]

theorem wakeup_walk_nonread_grants (t : SixLockType) (cpu : Nat)
    (ht : t ≠ .read) (ws : List SixLockWaiter) :
    ∀ lk : SixLock,
      (wakeup_walk t cpu lk false 0 ws).granted.length ≤ 1 ∧
      (∀ w ∈ (wakeup_walk t cpu lk false 0 ws).granted,
        (ws.filter fun x => decide (x.lock_want = t)).head? = some w) ∧
      (∀ w, (ws.filter fun x => decide (x.lock_want = t)).head? = some w →
        (__do_six_trylock_type lk t w.task false cpu).1 > 0 →
        (wakeup_walk t cpu lk false 0 ws).granted = [w]) := by
  induction ws with
  | nil =>
    intro lk
    exact ⟨by simp [wakeup_walk], by simp [wakeup_walk], by simp⟩
  | cons w rest ih =>
    intro lk
    by_cases hw : w.lock_want = t
    · have hfilter : ((w :: rest).filter fun x => decide (x.lock_want = t)) =
          w :: (rest.filter fun x => decide (x.lock_want = t)) := by
        simp [List.filter_cons, hw]
      rcases hp : __do_six_trylock_type lk t w.task false cpu with ⟨ret, lk2⟩
      by_cases hret : ret ≤ 0
      · have hg : (wakeup_walk t cpu lk false 0 (w :: rest)).granted = [] := by
          simp [wakeup_walk, hw, hp, hret]
        refine ⟨by simp [hg], by simp [hg], ?_⟩
        intro w2 hw2 hpos
        rw [hfilter] at hw2
        simp only [List.head?_cons, Option.some.injEq] at hw2
        subst hw2
        rw [hp] at hpos
        exact absurd hpos (by simpa using hret)
      · have hg : (wakeup_walk t cpu lk false 0 (w :: rest)).granted =
            w :: (wakeup_walk t cpu lk2 true ret rest).granted := by
          simp [wakeup_walk, hw, hp, hret]
        rw [wakeup_walk_sawOne_nonread t cpu ht rest lk2 ret] at hg
        refine ⟨by simp [hg], ?_, ?_⟩
        · intro w2 hw2
          rw [hg] at hw2
          simp only [List.mem_singleton] at hw2
          subst hw2
          rw [hfilter]
          rfl
        · intro w2 hw2 _
          rw [hfilter] at hw2
          simp only [List.head?_cons, Option.some.injEq] at hw2
          subst hw2
          exact hg
    · have hfilter : ((w :: rest).filter fun x => decide (x.lock_want = t)) =
          rest.filter fun x => decide (x.lock_want = t) := by
        simp [List.filter_cons, hw]
      have hg : (wakeup_walk t cpu lk false 0 (w :: rest)).granted =
          (wakeup_walk t cpu lk false 0 rest).granted := by
        simp [wakeup_walk, hw]
      obtain ⟨ih1, ih2, ih3⟩ := ih lk
      refine ⟨by rw [hg]; exact ih1, ?_, ?_⟩
      · intro w2 hw2
        rw [hg] at hw2
        rw [hfilter]
        exact ih2 w2 hw2
      · intro w2 hw2 hpos
        rw [hfilter] at hw2
        rw [hg]
        exact ih3 w2 hw2 hpos

theorem wakeup_walk_read_all (cpu : Nat) (ws : List SixLockWaiter) :
    ∀ (lk : SixLock) (sawOne : Bool) (r0 : Int),
      lk.readers = none → ¬ lock_fail .read lk.state →
      (wakeup_walk .read cpu lk sawOne r0 ws).granted =
        ws.filter fun x => decide (x.lock_want = .read) := by
  induction ws with
  | nil => intro lk sawOne r0 h hf; rfl
  | cons w rest ih =>
    intro lk sawOne r0 h hf
    by_cases hw : w.lock_want = .read
    · have hEq : __do_six_trylock_type lk .read w.task false cpu =
          (1, { lk with state := { lk.state with read_lock := lk.state.read_lock + 1 } }) := by
        rw [trylock_read_single lk w.task false cpu h, if_pos hf]
      have hg : (wakeup_walk .read cpu lk sawOne r0 (w :: rest)).granted =
          w :: (wakeup_walk .read cpu
            { lk with state := { lk.state with read_lock := lk.state.read_lock + 1 } }
            true 1 rest).granted := by
        simp [wakeup_walk, hw, hEq]
      rw [hg, ih _ true 1 (by simpa using h) (by simpa [lock_fail] using hf)]
      simp [List.filter_cons, hw]
    · have hg : (wakeup_walk .read cpu lk sawOne r0 (w :: rest)).granted =
          (wakeup_walk .read cpu lk sawOne r0 rest).granted := by
        simp [wakeup_walk, hw]
      rw [hg, ih lk sawOne r0 h hf]
      simp [List.filter_cons, hw]

/-- C4: one slow-wakeup traversal visits the waitlist in FIFO (admission)
order.  For target mode intent or write it grants at most one waiter — the
first same-mode waiter in the list — and exactly that one when its trylock
succeeds, stopping after the grant.  For target mode read (in-word reader
count, no writer or write aspirant present, so every read waiter is
eligible) the single traversal grants all read waiters. -/
theorem wakeup_walk_fifo_single_grant (t : SixLockType) (cpu : Nat)
    (lk : SixLock) (ws : List SixLockWaiter) :
    (t ≠ .read →
      (wakeup_walk t cpu lk false 0 ws).granted.length ≤ 1 ∧
      (∀ w ∈ (wakeup_walk t cpu lk false 0 ws).granted,
        (ws.filter fun x => decide (x.lock_want = t)).head? = some w) ∧
      (∀ w, (ws.filter fun x => decide (x.lock_want = t)).head? = some w →
        (__do_six_trylock_type lk t w.task false cpu).1 > 0 →
        (wakeup_walk t cpu lk false 0 ws).granted = [w])) ∧
    (t = .read → lk.readers = none → ¬ lock_fail .read lk.state →
      (wakeup_walk t cpu lk false 0 ws).granted =
        ws.filter fun x => decide (x.lock_want = .read)) := by
  constructor
  · intro ht
    exact wakeup_walk_nonread_grants t cpu ht ws lk
  · intro ht h hf
    subst ht
    exact wakeup_walk_read_all cpu ws lk false 0 h hf

/-- Witness for C4: an intent wakeup over [read-waiter, intent A, intent B]
grants exactly intent A (the first same-mode waiter); a read wakeup over
[read 1, intent, read 3] grants both read waiters in order. -/
theorem wakeup_walk_fifo_single_grant_w :
    (wakeup_walk .intent 0 six_init false 0
       [⟨1, .read, false, 0⟩, ⟨2, .intent, false, 0⟩, ⟨3, .intent, false, 0⟩]).granted =
      [⟨2, .intent, false, 0⟩] ∧
    (wakeup_walk .read 0 six_init false 0
       [⟨1, .read, false, 0⟩, ⟨2, .intent, false, 0⟩, ⟨3, .read, false, 0⟩]).granted =
      [⟨1, .read, false, 0⟩, ⟨3, .read, false, 0⟩] := by
  constructor
  · exact ((wakeup_walk_fifo_single_grant .intent 0 six_init
      [⟨1, .read, false, 0⟩, ⟨2, .intent, false, 0⟩, ⟨3, .intent, false, 0⟩]).1
      (by decide)).2.2 ⟨2, .intent, false, 0⟩ (by decide) (by decide)
  · exact ((wakeup_walk_fifo_single_grant .read 0 six_init
      [⟨1, .read, false, 0⟩, ⟨2, .intent, false, 0⟩, ⟨3, .read, false, 0⟩]).2
      rfl rfl (by decide)).trans (by decide)

end Six
